import Mathlib

/-!
A shallow embedding of the grammar-feature classifier implemented by
`FinalGrammarAnalyzer` in `src/grammer.py`.

A spaCy token is modelled by `Token`, carrying exactly the annotations the
rules read: surface text, coarse part-of-speech tag (`pos_`), fine tag
(`tag_`), dependency relation (`dep_`), the index of the head token, and the
optional morphological `Number` feature.  A parsed sentence (`doc`) is the
ordered list of its tokens; the list position plays the role of the spaCy
token index `token.i` (the data-model invariant says they coincide).

Each analysis method of the Python class is translated into a Lean function
over `List Token`; early `return` statements become nested if-then-else, the
`for` loops with short-circuiting become folds / `List.all`.
-/

structure Token where
  text : String
  pos : String
  tag : String
  dep : String
  headIndex : Nat
  morphNumber : Option String
  deriving Repr, DecidableEq

/-- Python's `str.lower()`, character by character (kernel-reducible, unlike
`String.toLower`). -/
def String.lower (s : String) : String := String.mk (s.data.map Char.toLower)

/-- Python substring test `pat in s`, on the character lists: does `l` start
with `p`? -/
def startsWithChars : List Char → List Char → Bool
  | _, [] => true
  | [], _ :: _ => false
  | c :: cs, q :: qs => c == q && startsWithChars cs qs

/-- Python substring test `pat in s`: some suffix of `l` starts with `p`. -/
def hasSubChars (p : List Char) : List Char → Bool
  | [] => startsWithChars [] p
  | c :: cs => startsWithChars (c :: cs) p || hasSubChars p cs

/-- `strContainsSub s pat` embeds Python's `pat in s` for strings. -/
def strContainsSub (s pat : String) : Bool :=
  hasSubChars pat.data s.data

/-- `doc[i - 1] if i > 0 else None` (look-behind used by the article check). -/
def prevToken (doc : List Token) (i : Nat) : Option Token :=
  if i > 0 then doc[i - 1]? else none

/-- `doc[i + 1] if i + 1 < len(doc) else None` (look-ahead used by the `'s`
disambiguation). -/
def nextToken (doc : List Token) (i : Nat) : Option Token :=
  if i + 1 < doc.length then doc[i + 1]? else none

def verbAuxPos : List String := ["VERB", "AUX"]

/-- Accumulator of the scan loop at the top of `_analyze_tense`. -/
structure TenseScan where
  auxVerbs : List (String × String)
  mainVerbs : List (String × String)
  allVerbTokens : List Token
  hasIngForm : Bool
  hasPastParticiple : Bool
  hasBeen : Bool
  deriving Repr, DecidableEq

def initScan : TenseScan :=
  { auxVerbs := [], mainVerbs := [], allVerbTokens := []
    hasIngForm := false, hasPastParticiple := false, hasBeen := false }

/-- First half of the loop body of `_analyze_tense` for a VERB/AUX token
(src/grammer.py lines 30-37): record the token and update the three
participle flags. -/
def scanBookkeep (s : TenseScan) (token : Token) : TenseScan :=
  let s1 := { s with allVerbTokens := s.allVerbTokens ++ [token] }
  if token.tag == "VBG" then { s1 with hasIngForm := true }
  else if token.tag == "VBN" then
    if token.text.lower == "been" then
      { s1 with hasPastParticiple := true, hasBeen := true }
    else { s1 with hasPastParticiple := true }
  else s1

/-- Second half of the loop body of `_analyze_tense` for the VERB/AUX token
at index `i` (src/grammer.py lines 39-57): resolve contracted auxiliaries
and bucket the token into auxiliary or main verbs. -/
def scanDispatch (doc : List Token) (s : TenseScan) (i : Nat) (token : Token) : TenseScan :=
  if token.text.lower ∈ ["\x27s"] then
    match nextToken doc i with
    | some nt =>
        if nt.tag == "VBG" then
          { s with auxVerbs := s.auxVerbs ++ [("is", "VBZ")], hasIngForm := true }
        else if nt.text.lower == "been" then
          { s with auxVerbs := s.auxVerbs ++ [("has", "VBZ")] }
        else
          { s with auxVerbs := s.auxVerbs ++ [("has", "VBZ")] }
    | none => { s with auxVerbs := s.auxVerbs ++ [("has", "VBZ")] }
  else if token.text.lower ∈ ["\x27ve"] then
    { s with auxVerbs := s.auxVerbs ++ [("have", "VBP")] }
  else if token.text.lower ∈ ["\x27m"] then
    { s with auxVerbs := s.auxVerbs ++ [("am", "VBP")] }
  else if token.text.lower ∈ ["\x27re"] then
    { s with auxVerbs := s.auxVerbs ++ [("are", "VBP")] }
  else if token.dep == "aux" then
    { s with auxVerbs := s.auxVerbs ++ [(token.text.lower, token.tag)] }
  else
    { s with mainVerbs := s.mainVerbs ++ [(token.text.lower, token.tag)] }

/-- One iteration of the `for token in doc` loop of `_analyze_tense`
(src/grammer.py lines 28-57).  `p` is the (index, token) pair; tokens whose
coarse tag is neither VERB nor AUX are passed over. -/
def scanStep (doc : List Token) (s : TenseScan) (p : Nat × Token) : TenseScan :=
  if p.2.pos ∈ verbAuxPos then scanDispatch doc (scanBookkeep s p.2) p.1 p.2 else s

/-- The completed scan of `_analyze_tense` over the whole sentence. -/
def tenseScan (doc : List Token) : TenseScan :=
  doc.enum.foldl (scanStep doc) initScan

/-- `any(verb in l for verb, _ in aux_verbs)`. -/
def anyAuxIn (s : TenseScan) (l : List String) : Bool :=
  s.auxVerbs.any (fun q => q.1 ∈ l)

/-- `any(token.tag_ in l for token in all_verb_tokens)`. -/
def anyVerbTagIn (s : TenseScan) (l : List String) : Bool :=
  s.allVerbTokens.any (fun t => t.tag ∈ l)

/-- The decision cascade of `_analyze_tense` (src/grammer.py lines 59-90);
each early `return` becomes one arm of the if-chain. -/
def tenseDecision (s : TenseScan) : String :=
  if s.hasBeen && s.hasIngForm && anyAuxIn s ["have", "has", "\x27ve", "\x27s"] then "현재 완료 진행형"
  else if s.hasBeen && s.hasIngForm && anyAuxIn s ["had"] then "과거 완료 진행형"
  else if s.hasIngForm && anyAuxIn s ["am", "is", "are", "\x27m", "\x27s", "\x27re"] then "현재 진행형"
  else if s.hasIngForm && anyAuxIn s ["was", "were"] then "과거 진행형"
  else if s.hasPastParticiple && anyAuxIn s ["have", "has", "\x27ve", "\x27s"] then "현재 완료형"
  else if s.hasPastParticiple && anyAuxIn s ["had"] then "과거 완료형"
  else if s.hasPastParticiple && !s.hasBeen && anyAuxIn s ["am", "is", "are"] then "현재 수동태"
  else if s.hasPastParticiple && !s.hasBeen && anyAuxIn s ["was", "were"] then "과거 수동태"
  else if anyVerbTagIn s ["VBD"] then "단순 과거형"
  else if anyVerbTagIn s ["VBP", "VBZ"] then "단순 현재형"
  else "알 수 없음"

/-- `_analyze_tense`. -/
def analyze_tense (doc : List Token) : String :=
  tenseDecision (tenseScan doc)

/-- `_analyze_voice` (src/grammer.py lines 92-103). -/
def analyze_voice (doc : List Token) : String :=
  let verb_pattern := (doc.filter (fun t => t.pos ∈ verbAuxPos)).map
    (fun t => (t.text.lower, t.tag))
  let be_verbs : List String := ["am", "is", "are", "was", "were", "be", "been"]
  let has_be_verb := verb_pattern.any (fun q => q.1 ∈ be_verbs)
  let has_past_participle := verb_pattern.any (fun q => q.2 == "VBN")
  if has_be_verb && has_past_participle &&
      !(verb_pattern.any (fun q => q.1 ∈ ["have", "has", "had"])) then "수동태"
  else "능동태"

/-- `_analyze_structure` (src/grammer.py lines 105-116). -/
def analyze_structure (doc : List Token) : String :=
  let subjects := doc.filter (fun t => strContainsSub t.dep "subj")
  let verbs := doc.filter (fun t => t.pos ∈ verbAuxPos)
  let objects := doc.filter (fun t => strContainsSub t.dep "obj")
  if !subjects.isEmpty && !verbs.isEmpty then
    if !objects.isEmpty then "SVO" else "SV"
  else "기타"

def articleExempt : List String :=
  ["school", "home", "work", "breakfast", "lunch", "dinner",
   "yesterday", "today", "tomorrow", "tv", "television"]

/-- spaCy `token.children`: the tokens (other than the token itself) whose
head is the token at index `i`. -/
def childTokens (doc : List Token) (i : Nat) : List Token :=
  (doc.enum.filter (fun q => q.1 != i && q.2.headIndex == i)).map Prod.snd

/-- The body of the `for` loop of `_check_article_usage` for the token at
index `i`: `true` means the loop does not `return False` at this token. -/
def articleTokenOk (doc : List Token) (i : Nat) (token : Token) : Bool :=
  if token.pos == "NOUN" && token.pos != "PROPN" then
    if token.text.lower ∈ articleExempt then true
    else if (childTokens doc i).any (fun c => c.dep ∈ ["poss", "nummod"]) then true
    else if token.dep == "pobj" then true
    else
      match prevToken doc i with
      | none => false
      | some pt => pt.pos ∈ ["DET", "PRON", "ADJ", "PROPN"]
  else true

/-- `_check_article_usage` (src/grammer.py lines 118-134). -/
def check_article_usage (doc : List Token) : Bool :=
  doc.enum.all (fun q => articleTokenOk doc q.1 q.2)

/-- The body of the `for` loop of `_check_subject_verb_agreement`: `true`
means the loop does not `return False` at this token. -/
def agreementTokenOk (doc : List Token) (token : Token) : Bool :=
  if token.dep == "nsubj" then
    match doc[token.headIndex]? with
    | some hd =>
        if hd.pos == "VERB" then
          match token.morphNumber, hd.morphNumber with
          | some a, some b => a == b
          | _, _ => true
        else true
    | none => true
  else true

/-- `_check_subject_verb_agreement` (src/grammer.py lines 150-158). -/
def check_subject_verb_agreement (doc : List Token) : Bool :=
  doc.all (fun t => agreementTokenOk doc t)

/-- The fixed-shape result dictionary of `analyze_grammar`. -/
structure GrammarAnalysis where
  tense : String
  voice : String
  sentStructure : String
  agreementOk : Bool
  articleOk : Bool
  deriving Repr, DecidableEq

/-- `analyze_grammar` (src/grammer.py lines 136-148), on an already parsed
sentence. -/
def analyze_grammar (doc : List Token) : GrammarAnalysis :=
  { tense := analyze_tense doc
    voice := analyze_voice doc
    sentStructure := analyze_structure doc
    agreementOk := check_subject_verb_agreement doc
    articleOk := check_article_usage doc }

/-- A VERB/AUX token that sets the `has_been` flag of the scan. -/
def beenTok (t : Token) : Bool :=
  decide (t.pos ∈ verbAuxPos) && (t.tag == "VBN") && (t.text.lower == "been")

/-!
## Specification-side definitions

The following definitions transcribe the *spec's* description of the rules
(§4.1 of the design document), to be compared with the code-derived
functions above.  The spec names its tense categories in English; they
denote the same result values the code returns, so the Korean result
strings are kept ("present perfect progressive" = "현재 완료 진행형",
"present progressive" = "현재 진행형", "present perfect" = "현재 완료형",
"present passive" = "현재 수동태", "simple past" = "단순 과거형",
"simple present" = "단순 현재형", "unknown" = "알 수 없음", and the
corresponding past forms). -/

/-- Spec §4.1 tense rule 1: `hasBeenParticiple && hasGerundForm`. -/
def specRule1 (s : TenseScan) : Option String :=
  if s.hasBeen && s.hasIngForm then
    if anyAuxIn s ["have", "has", "\x27ve", "\x27s"] then some "현재 완료 진행형"
    else if anyAuxIn s ["had"] then some "과거 완료 진행형"
    else none
  else none

/-- Spec §4.1 tense rule 2: `hasGerundForm`. -/
def specRule2 (s : TenseScan) : Option String :=
  if s.hasIngForm then
    if anyAuxIn s ["am", "is", "are", "\x27m", "\x27s", "\x27re"] then some "현재 진행형"
    else if anyAuxIn s ["was", "were"] then some "과거 진행형"
    else none
  else none

/-- Spec §4.1 tense rule 3: `hasPastParticiple`. -/
def specRule3 (s : TenseScan) : Option String :=
  if s.hasPastParticiple then
    if anyAuxIn s ["have", "has", "\x27ve", "\x27s"] then some "현재 완료형"
    else if anyAuxIn s ["had"] then some "과거 완료형"
    else none
  else none

/-- Spec §4.1 tense rule 4: `hasPastParticiple && !hasBeenParticiple`. -/
def specRule4 (s : TenseScan) : Option String :=
  if s.hasPastParticiple && !s.hasBeen then
    if anyAuxIn s ["am", "is", "are"] then some "현재 수동태"
    else if anyAuxIn s ["was", "were"] then some "과거 수동태"
    else none
  else none

/-- Spec §4.1 tense rule 5: any verb token tagged VBD. -/
def specRule5 (s : TenseScan) : Option String :=
  if anyVerbTagIn s ["VBD"] then some "단순 과거형" else none

/-- Spec §4.1 tense rule 6: any verb token tagged VBP or VBZ. -/
def specRule6 (s : TenseScan) : Option String :=
  if anyVerbTagIn s ["VBP", "VBZ"] then some "단순 현재형" else none

/-- First-match semantics over an ordered rule list, with a default for when
no rule matches (spec §4.1 rule 7). -/
def firstSome (d : String) : List (Option String) → String
  | [] => d
  | some r :: _ => r
  | none :: rest => firstSome d rest

/-- "Apply in strict order, returning the first category whose condition
holds" (spec §4.1): the seven-rule cascade over the scan-derived data. -/
def specTense (s : TenseScan) : String :=
  firstSome "알 수 없음"
    [specRule1 s, specRule2 s, specRule3 s, specRule4 s, specRule5 s, specRule6 s]

/-- Spec §4.1 voice rule, as a predicate over the sentence. -/
def specVoicePassive (doc : List Token) : Prop :=
  (∃ t ∈ doc, t.pos ∈ verbAuxPos ∧
    t.text.lower ∈ (["am", "is", "are", "was", "were", "be", "been"] : List String)) ∧
  (∃ t ∈ doc, t.pos ∈ verbAuxPos ∧ t.tag = "VBN") ∧
  (∀ t ∈ doc, t.pos ∈ verbAuxPos →
    t.text.lower ∉ (["have", "has", "had"] : List String))

instance (doc : List Token) : Decidable (specVoicePassive doc) := by
  unfold specVoicePassive; infer_instance

/-- Spec §4.1 article rule: the token at index `i` is a noun that makes the
article check fail. -/
def specBadNoun (doc : List Token) (i : Nat) (t : Token) : Prop :=
  t.pos = "NOUN" ∧ t.pos ≠ "PROPN" ∧
  t.text.lower ∉ articleExempt ∧
  (∀ c ∈ childTokens doc i, c.dep ≠ "poss" ∧ c.dep ≠ "nummod") ∧
  t.dep ≠ "pobj" ∧
  (∀ pt, prevToken doc i = some pt →
    pt.pos ∉ (["DET", "PRON", "ADJ", "PROPN"] : List String))

/-- Spec §4.1 agreement rule: the token is an `nsubj` whose VERB head
disagrees in grammatical number, both numbers being present. -/
def specAgreeBad (doc : List Token) (t : Token) : Prop :=
  t.dep = "nsubj" ∧
  ∃ hd, doc[t.headIndex]? = some hd ∧ hd.pos = "VERB" ∧
    ∃ a b, t.morphNumber = some a ∧ hd.morphNumber = some b ∧ a ≠ b

/-- The closed set of result strings `_analyze_tense` can produce (the spec's
seven §4.1 categories, their past counterparts, and "unknown"). -/
def tenseCategories : List String :=
  ["현재 완료 진행형", "과거 완료 진행형", "현재 진행형", "과거 진행형",
   "현재 완료형", "과거 완료형", "현재 수동태", "과거 수동태",
   "단순 과거형", "단순 현재형", "알 수 없음"]

/-!
## Concrete sentences

Token sequences for the test sentences of the spec (§8) used as concrete
inputs below.  Fields: text, pos, tag, dep, headIndex, morphNumber. -/

/-- "The food was being cooked." with the parse described in the spec:
was = AUX with dependency `aux`, being = AUX with fine tag VBG,
cooked = VERB with fine tag VBN, and no have/has/had and no "been". -/
def cookedDoc : List Token :=
  [⟨"The", "DET", "DT", "det", 1, none⟩,
   ⟨"food", "NOUN", "NN", "nsubjpass", 4, some "Sing"⟩,
   ⟨"was", "AUX", "VBD", "aux", 4, some "Sing"⟩,
   ⟨"being", "AUX", "VBG", "auxpass", 4, none⟩,
   ⟨"cooked", "VERB", "VBN", "ROOT", 4, none⟩,
   ⟨".", "PUNCT", ".", "punct", 4, none⟩]

/-- "She has been written to." style perfect sentence: contains an AUX "been"
with fine tag VBN. -/
def beenDoc : List Token :=
  [⟨"She", "PRON", "PRP", "nsubj", 3, some "Sing"⟩,
   ⟨"has", "AUX", "VBZ", "aux", 3, some "Sing"⟩,
   ⟨"been", "AUX", "VBN", "aux", 3, none⟩,
   ⟨"written", "VERB", "VBN", "ROOT", 3, none⟩,
   ⟨".", "PUNCT", ".", "punct", 3, none⟩]

/-!
## Helper lemmas

Component lemmas about the scan step and the decision cascade, shared by the
claim theorems below. -/

theorem scanBookkeep_auxVerbs (s : TenseScan) (t : Token) :
    (scanBookkeep s t).auxVerbs = s.auxVerbs := by
  unfold scanBookkeep
  repeat' split
  all_goals rfl

theorem scanBookkeep_mainVerbs (s : TenseScan) (t : Token) :
    (scanBookkeep s t).mainVerbs = s.mainVerbs := by
  unfold scanBookkeep
  repeat' split
  all_goals rfl

theorem scanBookkeep_hasBeen (s : TenseScan) (t : Token) :
    (scanBookkeep s t).hasBeen = (s.hasBeen || (t.tag == "VBN" && t.text.lower == "been")) := by
  unfold scanBookkeep
  repeat' split
  all_goals simp_all

theorem scanDispatch_hasBeen (doc : List Token) (s : TenseScan) (i : Nat) (t : Token) :
    (scanDispatch doc s i t).hasBeen = s.hasBeen := by
  unfold scanDispatch
  repeat' split
  all_goals rfl

theorem scanStep_hasBeen (doc : List Token) (s : TenseScan) (p : Nat × Token) :
    (scanStep doc s p).hasBeen = (s.hasBeen || beenTok p.2) := by
  unfold scanStep
  split
  · rename_i h
    rw [scanDispatch_hasBeen, scanBookkeep_hasBeen]
    simp [beenTok, h]
  · rename_i h
    simp [beenTok, h]

theorem anyMapGen {α β : Type} (f : α → β) (l : List α) (q : β → Bool) :
    (l.map f).any q = l.any (fun a => q (f a)) := by
  induction l with
  | nil => rfl
  | cons a l ih => simp [List.any_cons, ih]

theorem foldl_scan_hasBeen (doc : List Token) (l : List (Nat × Token)) (init : TenseScan) :
    (l.foldl (scanStep doc) init).hasBeen = (init.hasBeen || l.any (fun p => beenTok p.2)) := by
  induction l generalizing init with
  | nil => simp
  | cons p rest ih => simp [List.foldl_cons, ih, scanStep_hasBeen, List.any_cons, Bool.or_assoc]

theorem tenseScan_hasBeen (doc : List Token) :
    (tenseScan doc).hasBeen = doc.any beenTok := by
  unfold tenseScan
  rw [foldl_scan_hasBeen]
  have h1 : (doc.enum.map Prod.snd).any beenTok = doc.enum.any (fun p => beenTok p.2) :=
    anyMapGen Prod.snd doc.enum beenTok
  rw [List.enum_map_snd] at h1
  simp [initScan, ← h1]

theorem scanDispatch_s_vbg (doc : List Token) (s : TenseScan) (i : Nat) (t : Token)
    (h : t.text.lower = "\x27s") (nt : Token) (hnt : nextToken doc i = some nt)
    (hg : nt.tag = "VBG") :
    (scanDispatch doc s i t).auxVerbs = s.auxVerbs ++ [("is", "VBZ")] ∧
      (scanDispatch doc s i t).hasIngForm = true := by
  simp [scanDispatch, h, hnt, hg]

theorem scanDispatch_s_other (doc : List Token) (s : TenseScan) (i : Nat) (t : Token)
    (h : t.text.lower = "\x27s") (hn : ∀ nt, nextToken doc i = some nt → nt.tag ≠ "VBG") :
    (scanDispatch doc s i t).auxVerbs = s.auxVerbs ++ [("has", "VBZ")] := by
  rcases ho : nextToken doc i with _ | nt
  · simp [scanDispatch, h, ho]
  · have hne := hn nt ho
    simp only [scanDispatch, h, ho]
    simp [hne]

theorem scanDispatch_main (doc : List Token) (s : TenseScan) (i : Nat) (t : Token)
    (h : t.text.lower ∉ (["\x27s", "\x27ve", "\x27m", "\x27re"] : List String))
    (hd : t.dep ≠ "aux") :
    (scanDispatch doc s i t).mainVerbs = s.mainVerbs ++ [(t.text.lower, t.tag)] ∧
      (scanDispatch doc s i t).auxVerbs = s.auxVerbs := by
  simp only [List.mem_cons, not_or] at h
  obtain ⟨h1, h2, h3, h4, -⟩ := h
  simp [scanDispatch, h1, h2, h3, h4, hd]

theorem tenseDecision_eq_specTense (s : TenseScan) : tenseDecision s = specTense s := by
  simp only [tenseDecision, specTense, specRule1, specRule2, specRule3, specRule4,
    specRule5, specRule6]
  generalize anyAuxIn s ["have", "has", "\x27ve", "\x27s"] = a1
  generalize anyAuxIn s ["am", "is", "are", "\x27m", "\x27s", "\x27re"] = a2
  generalize anyAuxIn s ["had"] = a3
  generalize anyAuxIn s ["was", "were"] = a4
  generalize anyAuxIn s ["am", "is", "are"] = a5
  generalize anyVerbTagIn s ["VBD"] = v1
  generalize anyVerbTagIn s ["VBP", "VBZ"] = v2
  generalize s.hasBeen = hb
  generalize s.hasIngForm = hi
  generalize s.hasPastParticiple = hp
  revert a1 a2 a3 a4 a5 v1 v2 hb hi hp
  decide

theorem tenseDecision_mem (s : TenseScan) : tenseDecision s ∈ tenseCategories := by
  simp only [tenseDecision, tenseCategories]
  generalize anyAuxIn s ["have", "has", "\x27ve", "\x27s"] = a1
  generalize anyAuxIn s ["am", "is", "are", "\x27m", "\x27s", "\x27re"] = a2
  generalize anyAuxIn s ["had"] = a3
  generalize anyAuxIn s ["was", "were"] = a4
  generalize anyAuxIn s ["am", "is", "are"] = a5
  generalize anyVerbTagIn s ["VBD"] = v1
  generalize anyVerbTagIn s ["VBP", "VBZ"] = v2
  generalize s.hasBeen = hb
  generalize s.hasIngForm = hi
  generalize s.hasPastParticiple = hp
  revert a1 a2 a3 a4 a5 v1 v2 hb hi hp
  decide

theorem tenseDecision_not_passive_of_been (s : TenseScan) (hb : s.hasBeen = true) :
    tenseDecision s ≠ "현재 수동태" ∧ tenseDecision s ≠ "과거 수동태" := by
  simp only [tenseDecision, hb]
  generalize anyAuxIn s ["have", "has", "\x27ve", "\x27s"] = a1
  generalize anyAuxIn s ["am", "is", "are", "\x27m", "\x27s", "\x27re"] = a2
  generalize anyAuxIn s ["had"] = a3
  generalize anyAuxIn s ["was", "were"] = a4
  generalize anyAuxIn s ["am", "is", "are"] = a5
  generalize anyVerbTagIn s ["VBD"] = v1
  generalize anyVerbTagIn s ["VBP", "VBZ"] = v2
  generalize s.hasIngForm = hi
  generalize s.hasPastParticiple = hp
  revert a1 a2 a3 a4 a5 v1 v2 hi hp
  decide

theorem filter_nonempty_iff {α : Type} (p : α → Bool) (l : List α) :
    (l.filter p).isEmpty = false ↔ ∃ a ∈ l, p a = true := by
  rw [List.isEmpty_eq_false, Ne, List.filter_eq_nil_iff]
  constructor
  · intro h
    by_contra hc
    push_neg at hc
    exact h (fun a ha => by simpa using hc a ha)
  · rintro ⟨a, ha, hpa⟩ hall
    exact (hall a ha) hpa

theorem agreementTokenOk_false_iff (doc : List Token) (t : Token) :
    agreementTokenOk doc t = false ↔ specAgreeBad doc t := by
  by_cases hdep : t.dep = "nsubj"
  · rcases ho : doc[t.headIndex]? with _ | hd
    · simp [agreementTokenOk, specAgreeBad, hdep, ho]
    · by_cases hpos : hd.pos = "VERB"
      · rcases hma : t.morphNumber with _ | a <;> rcases hmb : hd.morphNumber with _ | b
        all_goals simp [agreementTokenOk, specAgreeBad, hdep, ho, hpos, hma, hmb]
      · simp [agreementTokenOk, specAgreeBad, hdep, ho, hpos]
  · simp [agreementTokenOk, specAgreeBad, hdep]

theorem articleTokenOk_false_iff (doc : List Token) (i : Nat) (t : Token) :
    articleTokenOk doc i t = false ↔ specBadNoun doc i t := by
  by_cases h1 : t.pos = "NOUN"
  · have hc1 : (t.pos == "NOUN" && t.pos != "PROPN") = true := by rw [h1]; decide
    by_cases h2 : t.text.lower ∈ articleExempt
    · simp [articleTokenOk, specBadNoun, hc1, h2]
    · by_cases h3 : ∀ c ∈ childTokens doc i, c.dep ≠ "poss" ∧ c.dep ≠ "nummod"
      · have h3' : ((childTokens doc i).any
            (fun c => decide (c.dep ∈ (["poss", "nummod"] : List String)))) = false := by
          rw [List.any_eq_false]
          intro c hc
          have := h3 c hc
          simp [this.1, this.2]
        by_cases h4 : t.dep = "pobj"
        · simp [articleTokenOk, specBadNoun, hc1, h2, h3', h4]
        · rcases hp : prevToken doc i with _ | pt
          · simp [articleTokenOk, specBadNoun, hc1, h1, h2, h3, h3', h4, hp]
          · by_cases h5 : pt.pos ∈ (["DET", "PRON", "ADJ", "PROPN"] : List String)
            · simp [articleTokenOk, specBadNoun, hc1, h2, h3', h4, hp, h5]
              simp only [List.mem_cons, List.not_mem_nil, or_false] at h5
              tauto
            · simp [articleTokenOk, specBadNoun, hc1, h1, h2, h3, h3', h4, hp, h5]
              simp only [List.mem_cons, List.not_mem_nil, or_false, not_or] at h5
              tauto
      · have h3' : ((childTokens doc i).any
            (fun c => decide (c.dep ∈ (["poss", "nummod"] : List String)))) = true := by
          rw [List.any_eq_true]
          push_neg at h3
          obtain ⟨c, hc, hcd⟩ := h3
          refine ⟨c, hc, ?_⟩
          by_cases hcp : c.dep = "poss"
          · simp [hcp]
          · simp [hcp, hcd hcp]
        have hok : articleTokenOk doc i t = true := by
          simp [articleTokenOk, hc1, h2]
          left
          rw [List.any_eq_true] at h3'
          obtain ⟨c, hc, hcd⟩ := h3'
          exact ⟨c, hc, by simpa using hcd⟩
        refine iff_of_false (by simp [hok]) ?_
        rintro ⟨-, -, -, hforall, -, -⟩
        exact absurd hforall h3
  · have hc1 : (t.pos == "NOUN") = false := beq_eq_false_iff_ne.mpr h1
    simp [articleTokenOk, specBadNoun, hc1, h1]

/-!
## Claim theorems -/

/-- C1: for every sentence, the tense result of `analyze_grammar` equals the
outcome of evaluating the seven §4.1 rules in strict order with first-match
semantics over the scan-derived data (auxiliary list, `hasIngForm`,
`hasPastParticiple`, `hasBeen`, and the verb-token tags). -/
theorem C1_tense_rule_cascade (doc : List Token) :
    (analyze_grammar doc).tense = specTense (tenseScan doc) :=
  tenseDecision_eq_specTense (tenseScan doc)

/-- C2: the voice result is "수동태" (passive) exactly when some VERB/AUX
token's lowercase text is a copular form, some VERB/AUX token has fine tag
VBN, and no VERB/AUX token's lowercase text is have/has/had; in every other
case it is "능동태" (active). -/
theorem C2_voice_characterization (doc : List Token) :
    (analyze_voice doc = "수동태" ↔ specVoicePassive doc) ∧
    (analyze_voice doc = "능동태" ↔ ¬ specVoicePassive doc) := by
  simp only [analyze_voice]
  split
  · rename_i h
    simp only [Bool.and_eq_true, Bool.not_eq_true', List.any_eq_true, List.any_eq_false,
      List.mem_map, List.mem_filter, decide_eq_true_eq, beq_iff_eq] at h
    obtain ⟨⟨⟨x, ⟨a, ⟨ha, hpa⟩, hax⟩, hbe⟩, ⟨y, ⟨b, ⟨hb, hpb⟩, hby⟩, hvbn⟩⟩, hno⟩ := h
    subst hax
    subst hby
    have hs : specVoicePassive doc := by
      refine ⟨⟨a, ha, hpa, hbe⟩, ⟨b, hb, hpb, hvbn⟩, ?_⟩
      intro t ht hpt
      exact hno (t.text.lower, t.tag) ⟨t, ⟨ht, hpt⟩, rfl⟩
    exact ⟨iff_of_true rfl hs, iff_of_false (by decide) (not_not_intro hs)⟩
  · rename_i h
    have hs : ¬ specVoicePassive doc := by
      intro hspec
      apply h
      obtain ⟨⟨a, ha, hpa, hbe⟩, ⟨b, hb, hpb, hvbn⟩, hno⟩ := hspec
      simp only [Bool.and_eq_true, Bool.not_eq_true', List.any_eq_true, List.any_eq_false,
        List.mem_map, List.mem_filter, decide_eq_true_eq, beq_iff_eq]
      refine ⟨⟨⟨_, ⟨a, ⟨ha, hpa⟩, rfl⟩, hbe⟩, ⟨_, ⟨b, ⟨hb, hpb⟩, rfl⟩, hvbn⟩⟩, ?_⟩
      rintro x ⟨t, ⟨ht, hpt⟩, rfl⟩
      exact hno t ht hpt
    exact ⟨iff_of_false (by decide) hs, iff_of_true rfl hs⟩

/-- C3 (counterexample): on the token configuration of "The food was being
cooked.", the tense evaluation does NOT reach rules 3/4: the result is
"과거 진행형" (past progressive, produced by rule 2), which is none of the
four categories rules 3 and 4 can produce, while voice is "수동태"
(passive) as the claim says. -/
theorem C3_counterexample :
    analyze_tense cookedDoc = "과거 진행형" ∧
    analyze_voice cookedDoc = "수동태" ∧
    "과거 진행형" ∉ (["현재 완료형", "과거 완료형", "현재 수동태", "과거 수동태"] : List String) := by
  decide

/-- C3 (amended): for the token configuration of "The food was being
cooked.", voice is "수동태" (passive), tense rule 1 does not fire
(`hasBeen` is false because no token's text is "been", so `specRule1`
yields nothing), and the evaluation falls through to rule 2, which fires —
`hasIngForm` holds via "being" (VBG) and the auxiliary "was" matches — so
the tense result is "과거 진행형" (past progressive). -/
theorem C3_amended :
    analyze_voice cookedDoc = "수동태" ∧
    (tenseScan cookedDoc).hasBeen = false ∧
    specRule1 (tenseScan cookedDoc) = none ∧
    (tenseScan cookedDoc).hasIngForm = true ∧
    anyAuxIn (tenseScan cookedDoc) ["was", "were"] = true ∧
    specRule2 (tenseScan cookedDoc) = some "과거 진행형" ∧
    analyze_tense cookedDoc = "과거 진행형" := by
  decide

/-- C4: a sentence containing a VERB/AUX token with fine tag VBN whose
lowercase text is "been" (which is what sets `hasBeenParticiple`) is never
classified "현재 수동태" (present passive) or "과거 수동태" (past passive):
rule 4's `!hasBeenParticiple` guard excludes it. -/
theorem C4_been_guard_excludes_passive (doc : List Token)
    (h : ∃ t ∈ doc, t.pos ∈ verbAuxPos ∧ t.tag = "VBN" ∧ t.text.lower = "been") :
    analyze_tense doc ≠ "현재 수동태" ∧ analyze_tense doc ≠ "과거 수동태" := by
  have hb : (tenseScan doc).hasBeen = true := by
    rw [tenseScan_hasBeen]
    rcases h with ⟨t, ht, h1, h2, h3⟩
    rw [List.any_eq_true]
    exact ⟨t, ht, by simp [beenTok, h1, h2, h3]⟩
  exact tenseDecision_not_passive_of_been (tenseScan doc) hb

/-- C4 witness: "She has been written to." contains such a "been" token and
is indeed not classified as a passive tense. -/
theorem C4_witness :
    (∃ t ∈ beenDoc, t.pos ∈ verbAuxPos ∧ t.tag = "VBN" ∧ t.text.lower = "been") ∧
      analyze_tense beenDoc ≠ "현재 수동태" :=
  ⟨by decide, (C4_been_guard_excludes_passive beenDoc (by decide)).1⟩

/-- C5: the article check fails exactly when some token is a NOUN that is
not in the exemption list, has no `poss`/`nummod` dependent, is not a
`pobj`, and whose immediately preceding token is missing or not a
DET/PRON/ADJ/PROPN. -/
theorem C5_article_characterization (doc : List Token) :
    check_article_usage doc = false ↔ ∃ i t, doc[i]? = some t ∧ specBadNoun doc i t := by
  unfold check_article_usage
  rw [List.all_eq_false]
  constructor
  · rintro ⟨⟨i, t⟩, hmem, hbad⟩
    rw [List.mem_enum_iff_getElem?] at hmem
    exact ⟨i, t, hmem, (articleTokenOk_false_iff doc i t).mp (by simpa using hbad)⟩
  · rintro ⟨i, t, hget, hbad⟩
    refine ⟨(i, t), ?_, ?_⟩
    · rw [List.mem_enum_iff_getElem?]
      exact hget
    · simpa using (articleTokenOk_false_iff doc i t).mpr hbad

/-- C6: the agreement check fails exactly when some token with dependency
relation exactly `nsubj` has a VERB head and both morphology numbers are
present and unequal; a pair with either number absent never causes
failure. -/
theorem C6_agreement_characterization (doc : List Token) :
    check_subject_verb_agreement doc = false ↔ ∃ t ∈ doc, specAgreeBad doc t := by
  unfold check_subject_verb_agreement
  rw [List.all_eq_false]
  constructor
  · rintro ⟨t, ht, hbad⟩
    exact ⟨t, ht, (agreementTokenOk_false_iff doc t).mp (by simpa using hbad)⟩
  · rintro ⟨t, ht, hbad⟩
    exact ⟨t, ht, by simpa using (agreementTokenOk_false_iff doc t).mpr hbad⟩

/-- C7: the structure result is "SVO" when subject tokens (dependency
containing "subj"), verb tokens (VERB/AUX) and object tokens (dependency
containing "obj") all exist, "SV" when subjects and verbs exist but objects
do not, and "기타" (other) exactly when subjects or verbs are missing. -/
theorem C7_structure_characterization (doc : List Token) :
    (analyze_structure doc = "SVO" ↔
      (∃ t ∈ doc, strContainsSub t.dep "subj" = true) ∧ (∃ t ∈ doc, t.pos ∈ verbAuxPos) ∧
        (∃ t ∈ doc, strContainsSub t.dep "obj" = true)) ∧
    (analyze_structure doc = "SV" ↔
      (∃ t ∈ doc, strContainsSub t.dep "subj" = true) ∧ (∃ t ∈ doc, t.pos ∈ verbAuxPos) ∧
        ¬(∃ t ∈ doc, strContainsSub t.dep "obj" = true)) ∧
    (analyze_structure doc = "기타" ↔
      ¬(∃ t ∈ doc, strContainsSub t.dep "subj" = true) ∨ ¬(∃ t ∈ doc, t.pos ∈ verbAuxPos)) := by
  simp only [analyze_structure]
  split
  · rename_i h1
    rw [Bool.and_eq_true, Bool.not_eq_true', Bool.not_eq_true'] at h1
    obtain ⟨hS, hV⟩ := h1
    rw [filter_nonempty_iff] at hS hV
    replace hV : ∃ t ∈ doc, t.pos ∈ verbAuxPos := by simpa using hV
    split
    · rename_i h2
      rw [Bool.not_eq_true', filter_nonempty_iff] at h2
      refine ⟨iff_of_true rfl ⟨hS, hV, h2⟩, iff_of_false (by decide) ?_,
        iff_of_false (by decide) ?_⟩
      · rintro ⟨-, -, hno⟩
        exact hno h2
      · rintro (hna | hnb)
        · exact hna hS
        · exact hnb hV
    · rename_i h2
      have hO : ¬ ∃ t ∈ doc, strContainsSub t.dep "obj" = true := by
        intro hx
        exact h2 (by rw [Bool.not_eq_true', filter_nonempty_iff]; exact hx)
      refine ⟨iff_of_false (by decide) ?_, iff_of_true rfl ⟨hS, hV, hO⟩,
        iff_of_false (by decide) ?_⟩
      · rintro ⟨-, -, hO2⟩
        exact hO hO2
      · rintro (hna | hnb)
        · exact hna hS
        · exact hnb hV
  · rename_i h1
    have hSV : ¬(∃ t ∈ doc, strContainsSub t.dep "subj" = true) ∨
        ¬(∃ t ∈ doc, t.pos ∈ verbAuxPos) := by
      by_contra hc
      push_neg at hc
      obtain ⟨hS, hV⟩ := hc
      apply h1
      rw [Bool.and_eq_true, Bool.not_eq_true', Bool.not_eq_true',
        filter_nonempty_iff, filter_nonempty_iff]
      exact ⟨hS, by simpa using hV⟩
    refine ⟨iff_of_false (by decide) ?_, iff_of_false (by decide) ?_, iff_of_true rfl hSV⟩
    · rintro ⟨hS, hV, -⟩
      rcases hSV with h | h
      · exact h hS
      · exact h hV
    · rintro ⟨hS, hV, -⟩
      rcases hSV with h | h
      · exact h hS
      · exact h hV

/-- C8: the tense scan resolves contracted auxiliaries as prescribed: a
VERB/AUX token "'s" emits ("is", VBZ) and sets the gerund flag when the next
token is tagged VBG, and emits ("has", VBZ) otherwise (both in the "been"
case and by default); "'ve" emits ("have", VBP), "'m" ("am", VBP), "'re"
("are", VBP) — all regardless of the token's dependency relation — and any
remaining VERB/AUX token without dependency `aux` is bucketed as a main
verb. -/
theorem C8_contracted_aux_resolution (doc : List Token) (s : TenseScan) (i : Nat) (t : Token)
    (hpos : t.pos ∈ verbAuxPos) :
    (t.text.lower = "\x27s" → ∀ nt, nextToken doc i = some nt → nt.tag = "VBG" →
        (scanStep doc s (i, t)).auxVerbs = s.auxVerbs ++ [("is", "VBZ")] ∧
        (scanStep doc s (i, t)).hasIngForm = true) ∧
    (t.text.lower = "\x27s" → (∀ nt, nextToken doc i = some nt → nt.tag ≠ "VBG") →
        (scanStep doc s (i, t)).auxVerbs = s.auxVerbs ++ [("has", "VBZ")]) ∧
    (t.text.lower = "\x27ve" →
        (scanStep doc s (i, t)).auxVerbs = s.auxVerbs ++ [("have", "VBP")]) ∧
    (t.text.lower = "\x27m" →
        (scanStep doc s (i, t)).auxVerbs = s.auxVerbs ++ [("am", "VBP")]) ∧
    (t.text.lower = "\x27re" →
        (scanStep doc s (i, t)).auxVerbs = s.auxVerbs ++ [("are", "VBP")]) ∧
    (t.text.lower ∉ (["\x27s", "\x27ve", "\x27m", "\x27re"] : List String) → t.dep ≠ "aux" →
        (scanStep doc s (i, t)).mainVerbs = s.mainVerbs ++ [(t.text.lower, t.tag)] ∧
        (scanStep doc s (i, t)).auxVerbs = s.auxVerbs) := by
  have hstep : scanStep doc s (i, t) = scanDispatch doc (scanBookkeep s t) i t := by
    simp [scanStep, hpos]
  rw [hstep]
  refine ⟨?_, ?_, ?_, ?_, ?_, ?_⟩
  · intro h nt hnt hg
    have := scanDispatch_s_vbg doc (scanBookkeep s t) i t h nt hnt hg
    rwa [scanBookkeep_auxVerbs] at this
  · intro h hn
    have := scanDispatch_s_other doc (scanBookkeep s t) i t h hn
    rwa [scanBookkeep_auxVerbs] at this
  · intro h
    rw [← scanBookkeep_auxVerbs s t]
    simp [scanDispatch, h]
  · intro h
    rw [← scanBookkeep_auxVerbs s t]
    simp [scanDispatch, h]
  · intro h
    rw [← scanBookkeep_auxVerbs s t]
    simp [scanDispatch, h]
  · intro h hd
    have := scanDispatch_main doc (scanBookkeep s t) i t h hd
    rwa [scanBookkeep_auxVerbs, scanBookkeep_mainVerbs] at this

/-- C8 witness: a concrete "'ve" AUX token is resolved to the auxiliary
("have", VBP). -/
theorem C8_witness :
    (scanStep [] initScan (0, ⟨"\x27ve", "AUX", "VBP", "aux", 2, none⟩)).auxVerbs =
      initScan.auxVerbs ++ [("have", "VBP")] :=
  (C8_contracted_aux_resolution [] initScan 0 ⟨"\x27ve", "AUX", "VBP", "aux", 2, none⟩
    (by decide)).2.2.1 (by decide)

/-- C9: `analyze_grammar` is total and shape-correct on every sentence: the
tense result is one of the eleven possible category strings (with "알 수
없음" the default), voice is "수동태" or "능동태" (default), structure is
"SVO", "SV" or "기타" (default), and the boundary look-behind at position 0
and look-ahead past the last position yield `none` instead of failing (the
two boolean checks default to `true`, which their characterizations C5/C6
make precise). -/
theorem C9_analyze_grammar_total (doc : List Token) :
    (analyze_grammar doc).tense ∈ tenseCategories ∧
    ((analyze_grammar doc).voice = "수동태" ∨ (analyze_grammar doc).voice = "능동태") ∧
    ((analyze_grammar doc).sentStructure = "SVO" ∨ (analyze_grammar doc).sentStructure = "SV" ∨
      (analyze_grammar doc).sentStructure = "기타") ∧
    prevToken doc 0 = none ∧
    (∀ i, doc.length ≤ i + 1 → nextToken doc i = none) := by
  refine ⟨tenseDecision_mem (tenseScan doc), ?_, ?_, ?_, ?_⟩
  · have : analyze_voice doc = "수동태" ∨ analyze_voice doc = "능동태" := by
      simp only [analyze_voice]
      split
      · exact Or.inl rfl
      · exact Or.inr rfl
    exact this
  · have : analyze_structure doc = "SVO" ∨ analyze_structure doc = "SV" ∨
        analyze_structure doc = "기타" := by
      simp only [analyze_structure]
      split
      · split
        · exact Or.inl rfl
        · exact Or.inr (Or.inl rfl)
      · exact Or.inr (Or.inr rfl)
    exact this
  · simp [prevToken]
  · intro i h
    unfold nextToken
    rw [if_neg (by omega)]

/-- C9 witness: at the last position of a concrete six-token sentence the
look-ahead is `none`, and its tense result is one of the category strings. -/
theorem C9_witness :
    nextToken cookedDoc 5 = none ∧ (analyze_grammar cookedDoc).tense ∈ tenseCategories :=
  ⟨(C9_analyze_grammar_total cookedDoc).2.2.2.2 5 (by decide),
   (C9_analyze_grammar_total cookedDoc).1⟩

/-- C10: on the empty sentence, `analyze_grammar` returns exactly the
all-default result: tense "알 수 없음" (unknown), voice "능동태" (active),
structure "기타" (other), and both boolean checks `true`. -/
theorem C10_empty_sentence_defaults :
    analyze_grammar [] =
      { tense := "알 수 없음", voice := "능동태", sentStructure := "기타",
        agreementOk := true, articleOk := true } := by
  rfl
